import Mathlib

/-!
Shallow embedding of `src/scraperio.py` (a Selenium-based page scraper).

The script drives a browser: navigate to the site, locate a search input by
trying an ordered list of CSS selectors, submit a query, optimistically
confirm results, persist the page to disk, all inside a bounded retry loop
with a guarded `finally` teardown.  External effects (the browser, the
filesystem clock and contents, subprocess execution) are modelled as
oracles: environment records that state, for each fallible step, whether it
raised an exception and what data it returned.  Python exceptions become
`Except String`; `None` becomes `Option.none`; the log stream is a list of
(level, message) entries accumulated exactly where the source calls
`logging.*`.
-/

/-- Log severities used by the script (`logging.info` / `warning` / `error`). -/
inductive LogLevel where
  | info
  | warning
  | error
deriving DecidableEq, Repr

/-- One log line: level plus message, as emitted by a `logging.*` call. -/
structure LogEntry where
  level : LogLevel
  msg : String
deriving DecidableEq, Repr

/-- A completed file write: path and the full text written to it. -/
structure FileWrite where
  path : String
  content : String
deriving DecidableEq, Repr

/-- The record returned by a successful `save_webpage` (a Python dict with
keys `html_path` and `screenshot_path`; the latter is `None` when
screenshotting is disabled). -/
structure CaptureResult where
  html_path : String
  screenshot_path : Option String
deriving DecidableEq, Repr

/-- `search_query.replace(' ', '_')` from line 33: every space character is
replaced by an underscore (the pattern is the single character `' '`, so the
replacement is a character map). -/
def sanitizeQuery (q : String) : String :=
  String.mk (q.data.map (fun c => if c = ' ' then '_' else c))

/-- Oracle for one invocation of `save_webpage`: what the filesystem, the
clock and the driver do at each fallible step of lines 24-77.
`makedirsExn`, `writeExn`, `screenshotExn` are `some e` when that Python
call raises exception `e`; `pageSource` is what `driver.page_source`
evaluates to (or the exception it raises); `htmlExists` / `htmlSize` are
what `os.path.exists` / `os.path.getsize` report at the verification step
(lines 59-61). -/
structure SaveEnv where
  cwd : String
  timestamp : String
  makedirsExn : Option String
  pageSource : Except String String
  writeExn : Option String
  screenshotExn : Option String
  htmlExists : Bool
  htmlSize : Nat
deriving Repr

/-- Output of the `try` body of `save_webpage` (lines 25-73): the completed
file writes, the screenshot paths captured, the log entries emitted, and
either the returned value (`Option CaptureResult`) or the exception that
escaped the body into the `except` clause. -/
structure SaveCoreResult where
  writes : List FileWrite
  screenshots : List String
  log : List LogEntry
  outcome : Except String (Option CaptureResult)
deriving Repr

/-- The `try` body of `save_webpage` (lines 25-73), step by step:
`os.makedirs`, filename construction from the sanitized query and the
timestamp, two info logs, `driver.page_source`, the HTML write
(`'<!DOCTYPE html>\n'` then the page source), the optional screenshot, and
the exists/size verification with its two distinct failure logs. -/
def save_webpage_core (env : SaveEnv) (search_query : String)
    (take_screenshot : Bool) : SaveCoreResult :=
  let outputs_dir := env.cwd ++ "/outputs"
  match env.makedirsExn with
  | some e => ⟨[], [], [], Except.error e⟩
  | none =>
    let base_filename :=
      "ticketmaster_" ++ sanitizeQuery search_query ++ "_" ++ env.timestamp
    let html_filename := base_filename ++ ".html"
    let html_filepath := outputs_dir ++ "/" ++ html_filename
    let log1 : List LogEntry :=
      [⟨LogLevel.info, "Saving HTML to directory: " ++ outputs_dir⟩,
       ⟨LogLevel.info, "HTML Filename: " ++ html_filename⟩]
    match env.pageSource with
    | Except.error e => ⟨[], [], log1, Except.error e⟩
    | Except.ok page_source =>
      match env.writeExn with
      | some e => ⟨[], [], log1, Except.error e⟩
      | none =>
        let writes := [FileWrite.mk html_filepath
          ("<!DOCTYPE html>\n" ++ page_source)]
        let shot :=
          if take_screenshot then
            match env.screenshotExn with
            | some e => Except.error e
            | none =>
              let p := outputs_dir ++ "/" ++ base_filename ++ ".png"
              Except.ok (some p, [p],
                [LogEntry.mk LogLevel.info ("Screenshot saved: " ++ p)])
          else Except.ok ((none : Option String), ([] : List String),
            ([] : List LogEntry))
        match shot with
        | Except.error e => ⟨writes, [], log1, Except.error e⟩
        | Except.ok (screenshot_path, shots, log2) =>
          if env.htmlExists then
            if env.htmlSize > 0 then
              ⟨writes, shots,
               log1 ++ log2 ++
                 [⟨LogLevel.info, "HTML file saved successfully!"⟩,
                  ⟨LogLevel.info, "Full path: " ++ html_filepath⟩],
               Except.ok (some ⟨html_filepath, screenshot_path⟩)⟩
            else
              ⟨writes, shots,
               log1 ++ log2 ++
                 [⟨LogLevel.warning, "HTML file was created but is empty"⟩],
               Except.ok none⟩
          else
            ⟨writes, shots,
             log1 ++ log2 ++
               [⟨LogLevel.error, "HTML file was not created"⟩],
             Except.ok none⟩

/-- Result of the whole `save_webpage` call: the catch-all `except` clause
(lines 75-77) has already been applied, so there is no exception channel
left — the function always returns, with `result = none` on any failure. -/
structure SaveResult where
  writes : List FileWrite
  screenshots : List String
  log : List LogEntry
  result : Option CaptureResult
deriving DecidableEq, Repr

/-- `save_webpage` (lines 24-77): run the body; any exception is caught,
logged as `"Error saving webpage: ..."` and converted to a `none` return. -/
def save_webpage (env : SaveEnv) (search_query : String)
    (take_screenshot : Bool) : SaveResult :=
  let c := save_webpage_core env search_query take_screenshot
  match c.outcome with
  | Except.ok r => ⟨c.writes, c.screenshots, c.log, r⟩
  | Except.error e =>
    ⟨c.writes, c.screenshots,
     c.log ++ [⟨LogLevel.error, "Error saving webpage: " ++ e⟩], none⟩

/-- An element returned by a `wait.until(EC.element_to_be_clickable(...))`
probe.  The script re-checks `search_input.is_displayed()` after the wait
(line 134), so visibility is recorded as a separate observable. -/
structure WebElement where
  displayed : Bool
deriving DecidableEq, Repr

/-- The search-input probe loop of lines 130-137.  One list entry per CSS
selector: `none` means the per-selector wait raised (timed out), `some el`
means it returned element `el`.  The accumulator is the Python variable
`search_input`: it is overwritten by every successful wait, and the loop
`break`s only when the returned element `is_displayed()`. -/
def findSearchInputLoop : List (Option WebElement) → Option WebElement →
    Option WebElement
  | [], acc => acc
  | none :: rest, acc => findSearchInputLoop rest acc
  | some el :: rest, acc =>
    if el.displayed then some el else findSearchInputLoop rest (some el)

/-- `search_input` after the selector loop, starting from `None` (line 130). -/
def findSearchInput (outs : List (Option WebElement)) : Option WebElement :=
  findSearchInputLoop outs none

/-- The result-container probe loop of lines 159-167: one Bool per result
selector (`true` = `wait.until(EC.presence_of_element_located(...))`
succeeded), `break` on the first success; yields `results_found`. -/
def confirmResults : List Bool → Bool
  | [] => false
  | b :: rest => if b then true else confirmResults rest

/-- Oracle for one iteration of the retry loop of `search_and_save_page`
(lines 103-194): one field per fallible external step, in source order.
`navExn` is `driver.get`; `initialLoadOk` is what the readiness poll of
`wait_for_page_load` observes (line 108); `cookieFound` is whether the
consent-dialog wait succeeds (its `except` swallows everything, line 118);
`searchProbe` / `resultProbe` drive the two selector loops; `clearExn`,
`typeExn`, `submitExn` are the three input interactions of lines 144-146;
`reconfirmOk` is the second readiness poll (line 173); the two `scroll`
fields are the `execute_script` calls of lines 178-180; `saveEnv` drives
`save_webpage`; `htmlExistsAtReturn` is the `os.path.exists` re-check of
line 187. -/
structure AttemptEnv where
  navExn : Option String
  initialLoadOk : Bool
  cookieFound : Bool
  searchProbe : List (Option WebElement)
  clearExn : Option String
  typeExn : Option String
  submitExn : Option String
  resultProbe : List Bool
  reconfirmOk : Bool
  scrollDownExn : Option String
  scrollUpExn : Option String
  saveEnv : SaveEnv
  htmlExistsAtReturn : Bool
deriving Repr

/-- How the `try` body of one loop iteration ends: `ret r` is a `return`
statement (line 192 or 194), `exn e` is an exception reaching the `except`
clause of line 196. -/
inductive AttemptOutcome where
  | ret (r : Option CaptureResult)
  | exn (e : String)
deriving DecidableEq, Repr

/-- Observables of one loop iteration: how the body ended, the log emitted,
whether the persistence step (`save_webpage`, line 185) was reached, and the
file writes it performed. -/
structure AttemptResult where
  outcome : AttemptOutcome
  log : List LogEntry
  saveCalled : Bool
  writes : List FileWrite
deriving Repr

/-- `wait_for_page_load` (lines 79-88): returns whether the readiness poll
succeeded, logging a warning on timeout. -/
def wait_for_page_load (loadOk : Bool) : Bool × List LogEntry :=
  if loadOk then (true, [])
  else (false, [⟨LogLevel.warning, "Page load timeout"⟩])

/-- The `try` body of one iteration of the retry loop (lines 103-194):
navigate, wait for readiness (raising `"Page failed to load"` on timeout),
best-effort cookie dismissal, search-input selector loop (raising
`"Could not find search input"` when `search_input` is still falsy), clear /
type / submit, result-container selector loop (non-fatal: a warning when
nothing matched), readiness re-check (raising
`"Search results page failed to load"`), two scrolls, then `save_webpage`
and the guarded `return`. -/
def runAttempt (env : AttemptEnv) (q : String) : AttemptResult :=
  let log0 : List LogEntry := [⟨LogLevel.info, "Loading Ticketmaster..."⟩]
  match env.navExn with
  | some e => ⟨AttemptOutcome.exn e, log0, false, []⟩
  | none =>
    let w := wait_for_page_load env.initialLoadOk
    let log1 := log0 ++ w.2
    if !w.1 then
      ⟨AttemptOutcome.exn "Page failed to load", log1, false, []⟩
    else
      let logC := log1 ++
        (if env.cookieFound then ([] : List LogEntry)
         else [⟨LogLevel.info, "No cookie consent popup found"⟩])
      match findSearchInput env.searchProbe with
      | none =>
        ⟨AttemptOutcome.exn "Could not find search input", logC, false, []⟩
      | some _ =>
        let log2 := logC ++ [⟨LogLevel.info, "Entering search query..."⟩]
        match env.clearExn with
        | some e => ⟨AttemptOutcome.exn e, log2, false, []⟩
        | none =>
        match env.typeExn with
        | some e => ⟨AttemptOutcome.exn e, log2, false, []⟩
        | none =>
        match env.submitExn with
        | some e => ⟨AttemptOutcome.exn e, log2, false, []⟩
        | none =>
          let results_found := confirmResults env.resultProbe
          let log3 := log2 ++
            (if results_found then
              [⟨LogLevel.info, "Search results found"⟩]
             else
              [⟨LogLevel.warning,
                "Could not confirm results - will try to save anyway"⟩])
          let w2 := wait_for_page_load env.reconfirmOk
          let log4 := log3 ++ w2.2
          if !w2.1 then
            ⟨AttemptOutcome.exn "Search results page failed to load", log4,
              false, []⟩
          else
            let log5 := log4 ++ [⟨LogLevel.info, "Loading all content..."⟩]
            match env.scrollDownExn with
            | some e => ⟨AttemptOutcome.exn e, log5, false, []⟩
            | none =>
            match env.scrollUpExn with
            | some e => ⟨AttemptOutcome.exn e, log5, false, []⟩
            | none =>
              let log6 := log5 ++ [⟨LogLevel.info, "Saving webpage..."⟩]
              let saved := save_webpage env.saveEnv q true
              let log7 := log6 ++ saved.log
              match saved.result with
              | some r =>
                if env.htmlExistsAtReturn then
                  ⟨AttemptOutcome.ret (some r),
                   log7 ++ [⟨LogLevel.info, "Success! Files saved:"⟩,
                     ⟨LogLevel.info, "HTML: " ++ r.html_path⟩] ++
                     (match r.screenshot_path with
                      | some p => [⟨LogLevel.info, "Screenshot: " ++ p⟩]
                      | none => []),
                   true, saved.writes⟩
                else
                  ⟨AttemptOutcome.ret none, log7, true, saved.writes⟩
              | none => ⟨AttemptOutcome.ret none, log7, true, saved.writes⟩

/-- Observables of a whole `search_and_save_page` run: the returned value,
how many times the loop body ran, the attempt indices at which the `finally`
block of lines 206-209 actually called `driver.quit()`, and the file writes
performed. -/
structure RunResult where
  result : Option CaptureResult
  attempts : Nat
  quitIdxs : List Nat
  writes : List FileWrite
deriving Repr

/-- The guard of the `finally` block (line 207):
`retry_count == max_retries or not retry_count`.  `rc` is the value of
`retry_count` when the `finally` block runs — on the exception path the
`except` clause has already incremented it. -/
def quitGuard (rc m : Nat) : Bool :=
  rc == m || rc == 0

/-- The `while retry_count <= max_retries` loop of lines 102-209.  `env`
gives the oracle for the iteration entered with `retry_count = rc`.  `fuel`
is a structural bound on the remaining iterations; it never runs out when
called with `fuel = max_retries + 1 - rc`, because `retry_count` strictly
increases on every non-returning iteration.  On a `return`, the `finally`
block sees the unchanged `rc`; on an exception, the `except` clause
increments to `rc + 1` first, then the `finally` guard is evaluated, and
the loop continues only while `rc + 1 ≤ max_retries`. -/
def searchLoop (env : Nat → AttemptEnv) (q : String) (m : Nat) :
    Nat → Nat → RunResult
  | 0, _ => ⟨none, 0, [], []⟩
  | fuel + 1, rc =>
    if rc > m then ⟨none, 0, [], []⟩
    else
      let a := runAttempt (env rc) q
      match a.outcome with
      | AttemptOutcome.ret r =>
        ⟨r, 1, if quitGuard rc m then [rc] else [], a.writes⟩
      | AttemptOutcome.exn _ =>
        if rc + 1 ≤ m then
          let rest := searchLoop env q m fuel (rc + 1)
          ⟨rest.result, 1 + rest.attempts,
           (if quitGuard (rc + 1) m then [rc] else []) ++ rest.quitIdxs,
           a.writes ++ rest.writes⟩
        else
          ⟨none, 1, if quitGuard (rc + 1) m then [rc] else [], a.writes⟩

/-- `search_and_save_page` (lines 90-209): create one browser session (the
session itself is opaque here; `MainResult.sessions` below records that one
was created), then run the retry loop from `retry_count = 0`. -/
def search_and_save_page (env : Nat → AttemptEnv) (q : String) (m : Nat) :
    RunResult :=
  searchLoop env q m (m + 1) 0

/-- Outcome of `subprocess.run([sys.executable, crawler_path], check=True)`
(line 220): the child exited 0, or it exited non-zero (`check=True` raises
`CalledProcessError`), or the call itself failed (any other exception). -/
inductive CrawlerOutcome where
  | success
  | calledProcessError (msg : String)
  | otherError (msg : String)
deriving DecidableEq, Repr

/-- `execute_crawler` (lines 211-225): build the crawler path next to the
script, invoke it via `subprocess.run` with exactly the two-element argument
list `[interp, crawler_path]`, and log — never re-raise — each of the two
failure shapes distinctly.  Returns the log and the list of argument vectors
passed to `subprocess.run`. -/
def execute_crawler (interp scriptDir : String) (c : CrawlerOutcome) :
    List LogEntry × List (List String) :=
  let crawler_path := scriptDir ++ "/crawler.py"
  let launch := [interp, crawler_path]
  let log0 : List LogEntry := [⟨LogLevel.info, "Starting crawler process..."⟩]
  match c with
  | CrawlerOutcome.success =>
    (log0 ++ [⟨LogLevel.info, "Crawler process completed successfully"⟩],
     [launch])
  | CrawlerOutcome.calledProcessError e =>
    (log0 ++ [⟨LogLevel.error, "Error executing crawler: " ++ e⟩], [launch])
  | CrawlerOutcome.otherError e =>
    (log0 ++ [⟨LogLevel.error,
      "Unexpected error while executing crawler: " ++ e⟩], [launch])

/-- Observables of one whole program run (`__main__`, lines 227-242):
`sessions` counts browser sessions created (`webdriver.Chrome(...)` at line
98 runs once per `search_and_save_page` call); `invocations` is the list of
argument vectors handed to `subprocess.run`; `exitCode` is the process exit
status — the script never calls `sys.exit` and its top-level `except`
clauses catch and log everything, so the default success status survives
every internal failure; `log` holds the entries emitted by `__main__` and
`execute_crawler` themselves. -/
structure MainResult where
  sessions : Nat
  result : Option CaptureResult
  writes : List FileWrite
  invocations : List (List String)
  exitCode : Nat
  log : List LogEntry
deriving DecidableEq, Repr

/-- Python's `str.strip()` with no argument (line 229): remove whitespace
from both ends of the string. -/
def strip (s : String) : String :=
  String.mk
    (((s.data.dropWhile Char.isWhitespace).reverse.dropWhile
      Char.isWhitespace).reverse)

/-- `__main__` (lines 227-242): read one line, strip it; an empty query is
rejected with a logged error before any session exists; otherwise run
`search_and_save_page` with the default `max_retries = 2` and launch the
crawler only when it returned a result. -/
def mainRun (stdinLine : String) (env : Nat → AttemptEnv)
    (interp scriptDir : String) (c : CrawlerOutcome) : MainResult :=
  let query := strip stdinLine
  if query = "" then
    ⟨0, none, [], [], 0,
     [⟨LogLevel.error, "Search query cannot be empty"⟩]⟩
  else
    let run := search_and_save_page env query 2
    match run.result with
    | some r =>
      let ec := execute_crawler interp scriptDir c
      ⟨1, some r, run.writes, ec.2, 0, ec.1⟩
    | none =>
      ⟨1, none, run.writes, [], 0,
       [⟨LogLevel.error,
         "Failed to save the webpage. Please check the logs for details."⟩]⟩

/-- A `SaveEnv` in which persistence fully succeeds. -/
def okSaveEnv : SaveEnv :=
  ⟨"/w", "20240101_120000", none, Except.ok "<p>hi</p>", none, none,
   true, 42⟩

/-- An attempt whose very first step (`driver.get`) raises. -/
def failNavAttempt : AttemptEnv :=
  ⟨some "net::ERR_NAME_NOT_RESOLVED", true, true,
   [none, none, none, none, none], none, none, none,
   [false, false, false, false, false, false, false], true, none, none,
   okSaveEnv, true⟩

/-- An attempt in which every step succeeds: the first search selector
yields a displayed element, the first result selector matches, persistence
succeeds. -/
def goodAttempt : AttemptEnv :=
  ⟨none, true, true, [some ⟨true⟩, none, none, none, none],
   none, none, none, [true, false, false, false, false, false, false],
   true, none, none, okSaveEnv, true⟩

/-- A `SaveEnv` in which the HTML file is missing at the verification step,
so `save_webpage` returns `None` without raising. -/
def saveFailEnv : SaveEnv :=
  ⟨"/w", "20240101_120000", none, Except.ok "<p>hi</p>", none, none,
   false, 0⟩

/-- An attempt whose body runs to the end but whose persistence step
returns `None` (HTML file missing at verification). -/
def saveNoneAttempt : AttemptEnv :=
  { goodAttempt with saveEnv := saveFailEnv }

/-- An attempt in which no result-container selector matches but everything
else succeeds. -/
def noResultsAttempt : AttemptEnv :=
  { goodAttempt with
    resultProbe := [false, false, false, false, false, false, false] }

/-- A `SaveEnv` in which the HTML write fully succeeds (file present and
non-empty afterwards) but `driver.save_screenshot` raises. -/
def screenshotFailEnv : SaveEnv :=
  ⟨"/w", "20240101_120000", none, Except.ok "<p>hi</p>", none,
   some "screenshot boom", true, 42⟩

/-- Whether a single selector probe yielded a visible (displayed) element. -/
def yieldsVisible : Option WebElement → Bool
  | some el => el.displayed
  | none => false

/-- Loop invariant, all-failure case: when every attempt's body raises, the
loop entered at `retry_count = rc` runs its body `m + 1 - rc` more times,
returns `none`, and calls `driver.quit()` exactly on the iteration whose
`except` clause raises the counter to `m` (attempt index `m - 1`), which it
reaches iff `rc + 1 ≤ m`. -/
theorem quitGuard_eq_true (n m : Nat) (h : n = m ∨ n = 0) :
    quitGuard n m = true := by
  rcases h with h | h <;> simp [quitGuard, h]

theorem quitGuard_eq_false (n m : Nat) (h1 : n ≠ m) (h2 : n ≠ 0) :
    quitGuard n m = false := by
  simp only [quitGuard, Bool.or_eq_false_iff, beq_eq_false_iff_ne, ne_eq]
  exact ⟨h1, h2⟩

theorem quitGuard_ne (n m : Nat) (h1 : n ≠ m) (h2 : n ≠ 0) :
    ¬ (quitGuard n m = true) := by
  rw [quitGuard_eq_false n m h1 h2]
  simp

theorem quitIdxs_step (rc m : Nat) (hc : rc + 1 ≤ m) :
    (if quitGuard (rc + 1) m then [rc] else ([] : List Nat)) ++
      (if rc + 1 + 1 ≤ m then [m - 1] else []) = [m - 1] := by
  by_cases h : rc + 1 = m
  · rw [if_pos (quitGuard_eq_true (rc + 1) m (Or.inl h)),
      if_neg (by omega : ¬ rc + 1 + 1 ≤ m), List.append_nil]
    simp only [List.cons.injEq, and_true]
    omega
  · rw [if_neg (quitGuard_ne (rc + 1) m h (by omega)),
      if_pos (by omega : rc + 1 + 1 ≤ m), List.nil_append]

theorem searchLoop_allFail (env : Nat → AttemptEnv) (q : String) (m : Nat)
    (hfail : ∀ j, j ≤ m →
      ∃ e, (runAttempt (env j) q).outcome = AttemptOutcome.exn e) :
    ∀ fuel rc, rc ≤ m → m + 1 - rc ≤ fuel →
      (searchLoop env q m fuel rc).result = none ∧
      (searchLoop env q m fuel rc).attempts = m + 1 - rc ∧
      (searchLoop env q m fuel rc).quitIdxs =
        (if rc + 1 ≤ m then [m - 1] else []) := by
  intro fuel
  induction fuel with
  | zero => intro rc h1 h2; omega
  | succ fuel ih =>
    intro rc h1 h2
    obtain ⟨e, he⟩ := hfail rc h1
    by_cases hc : rc + 1 ≤ m
    · obtain ⟨hres, hatt, hq⟩ := ih (rc + 1) (by omega) (by omega)
      simp only [searchLoop, if_neg (by omega : ¬ rc > m), he, if_pos hc]
      refine ⟨by simp [hres], ?_, ?_⟩
      · simp only [hatt]
        omega
      · simp only [hq, if_pos hc]
        exact quitIdxs_step rc m hc
    · simp only [searchLoop, if_neg (by omega : ¬ rc > m), he, if_neg hc]
      refine ⟨by trivial, by omega, ?_⟩
      rw [if_neg (quitGuard_ne (rc + 1) m (by omega) (by omega))]

/-- Loop invariant, prefix-of-failures case: when attempts `0 .. k - 1`
raise and attempt `k`'s body executes a `return r` (at line 192 or 194),
the loop entered at `retry_count = rc ≤ k` returns `r` after exactly
`k + 1 - rc` more iterations — the `return` ends the loop at once, no
matter how many retries remain. -/
theorem searchLoop_prefixRet (env : Nat → AttemptEnv) (q : String)
    (m k : Nat) (r : Option CaptureResult)
    (hpre : ∀ j, j < k → ∃ e, (runAttempt (env j) q).outcome =
      AttemptOutcome.exn e)
    (hret : (runAttempt (env k) q).outcome = AttemptOutcome.ret r)
    (hk : k ≤ m) :
    ∀ fuel rc, rc ≤ k → m + 1 - rc ≤ fuel →
      (searchLoop env q m fuel rc).result = r ∧
      (searchLoop env q m fuel rc).attempts = k + 1 - rc := by
  intro fuel
  induction fuel with
  | zero => intro rc h1 h2; omega
  | succ fuel ih =>
    intro rc h1 h2
    by_cases hrk : rc = k
    · subst hrk
      simp only [searchLoop, if_neg (by omega : ¬ rc > m), hret]
      exact ⟨by trivial, by omega⟩
    · obtain ⟨e, he⟩ := hpre rc (by omega)
      have hc : rc + 1 ≤ m := by omega
      obtain ⟨hres, hatt⟩ := ih (rc + 1) (by omega) (by omega)
      simp only [searchLoop, if_neg (by omega : ¬ rc > m), he, if_pos hc,
        hres, hatt]
      exact ⟨by trivial, by omega⟩

/-- The probe accumulator is `none` iff it started as `none` and every
probe in the list timed out: a returned element — displayed or not — is
assigned to `search_input` and keeps it truthy forever after. -/
theorem findSearchInputLoop_eq_none (outs : List (Option WebElement)) :
    ∀ acc, (findSearchInputLoop outs acc = none ↔
      acc = none ∧ ∀ o ∈ outs, o = none) := by
  induction outs with
  | nil => intro acc; simp [findSearchInputLoop]
  | cons o rest ih =>
    intro acc
    match o with
    | none => simp [findSearchInputLoop, ih acc]
    | some el =>
      by_cases hd : el.displayed = true
      · simp [findSearchInputLoop, hd]
      · simp only [findSearchInputLoop, if_neg hd, ih (some el)]
        simp

/-- Once the list still holds a probe that returns a displayed element, and
every earlier probe returned no displayed element, the loop `break`s there:
the first displayed element wins, whatever the accumulator holds. -/
theorem findSearchInputLoop_first_displayed (l : List (Option WebElement))
    (el : WebElement) (r : List (Option WebElement))
    (hd : el.displayed = true)
    (hl : ∀ o ∈ l, ∀ e, o = some e → e.displayed = false) :
    ∀ acc, findSearchInputLoop (l ++ some el :: r) acc = some el := by
  induction l with
  | nil => intro acc; simp [findSearchInputLoop, hd]
  | cons o rest ih =>
    intro acc
    have hrest : ∀ o ∈ rest, ∀ e, o = some e → e.displayed = false :=
      fun o ho e he => hl o (List.mem_cons_of_mem _ ho) e he
    match o with
    | none => simpa [findSearchInputLoop] using ih hrest acc
    | some e' =>
      have he' : e'.displayed = false := hl (some e') (by simp) e' rfl
      simp only [List.cons_append, findSearchInputLoop, he',
        Bool.false_eq_true, if_false]
      exact ih hrest (some e')

/-- If every result-container probe failed, `results_found` stays `False`. -/
theorem confirmResults_eq_false (l : List Bool)
    (h : ∀ b ∈ l, b = false) : confirmResults l = false := by
  induction l with
  | nil => rfl
  | cons b rest ih =>
    have hb : b = false := h b (by simp)
    subst hb
    simpa [confirmResults] using ih (fun b hb => h b (by simp [hb]))

/-- Claim C1: for every non-empty query and every `max_retries ≥ 0`, if a
session-level failure condition is raised on every attempt, then
`search_and_save_page` performs exactly `max_retries + 1` attempts (the
loop body runs for counter values `0` through `max_retries` inclusive) and
returns `None` — never fewer or more attempts. -/
theorem C1_retry_count_respected (env : Nat → AttemptEnv) (q : String)
    (m : Nat) (hq : q ≠ "")
    (hfail : ∀ j, j ≤ m →
      ∃ e, (runAttempt (env j) q).outcome = AttemptOutcome.exn e) :
    (search_and_save_page env q m).result = none ∧
    (search_and_save_page env q m).attempts = m + 1 := by
  obtain ⟨h1, h2, _⟩ :=
    searchLoop_allFail env q m hfail (m + 1) 0 (by omega) (by omega)
  refine ⟨h1, ?_⟩
  rw [search_and_save_page, h2]
  omega

/-- Witness for C1 at a concrete input: `max_retries = 2` and navigation
failing on every attempt gives exactly 3 attempts and no result. -/
theorem C1_retry_count_respected_witness :
    ("adele" ≠ "") ∧
    (runAttempt failNavAttempt "adele").outcome =
      AttemptOutcome.exn "net::ERR_NAME_NOT_RESOLVED" ∧
    (search_and_save_page (fun _ => failNavAttempt) "adele" 2).result =
      none ∧
    (search_and_save_page (fun _ => failNavAttempt) "adele" 2).attempts =
      2 + 1 :=
  ⟨by decide, by decide,
   C1_retry_count_respected (fun _ => failNavAttempt) "adele" 2 (by decide)
     (fun j _ => ⟨"net::ERR_NAME_NOT_RESOLVED", rfl⟩)⟩

/-- Counterexample to claim C2 as stated: with `max_retries = 0` and the
single (zeroth, final, exhausted) attempt raising, the run finishes with
`driver.quit()` having executed zero times, not exactly once — the
`except` clause has already incremented `retry_count` to 1 when the
`finally` guard `retry_count == max_retries or not retry_count` runs, so
neither disjunct holds. -/
theorem C2_teardown_counterexample :
    (search_and_save_page (fun _ => failNavAttempt) "adele" 0).attempts =
      1 ∧
    (search_and_save_page (fun _ => failNavAttempt) "adele" 0).quitIdxs =
      [] := by
  decide

/-- Claim C2 amended: the teardown guard is evaluated with the retry
counter already incremented on the failure path, so in a run whose every
attempt raises, `driver.quit()` fires exactly once — on the exit path of
attempt `max_retries - 1`, not of the final exhausted attempt — when
`max_retries ≥ 1`, and never fires when `max_retries = 0`.  (On other
shapes of run it can also fire zero times or twice; this theorem settles
the all-failure runs the original claim quantified over.) -/
theorem C2_teardown_amended (env : Nat → AttemptEnv) (q : String) (m : Nat)
    (hfail : ∀ j, j ≤ m →
      ∃ e, (runAttempt (env j) q).outcome = AttemptOutcome.exn e) :
    (search_and_save_page env q m).quitIdxs =
      (if m = 0 then [] else [m - 1]) := by
  obtain ⟨_, _, h3⟩ :=
    searchLoop_allFail env q m hfail (m + 1) 0 (by omega) (by omega)
  rw [search_and_save_page, h3]
  by_cases hm : m = 0
  · rw [if_neg (by omega), if_pos hm]
  · rw [if_pos (by omega), if_neg hm]

/-- Witness for the amended C2: with `max_retries = 2` and every attempt
failing, the single teardown runs on attempt index 1, the middle attempt. -/
theorem C2_teardown_amended_witness :
    (runAttempt failNavAttempt "adele").outcome =
      AttemptOutcome.exn "net::ERR_NAME_NOT_RESOLVED" ∧
    (search_and_save_page (fun _ => failNavAttempt) "adele" 2).quitIdxs =
      (if 2 = 0 then [] else [2 - 1]) :=
  ⟨by decide,
   C2_teardown_amended (fun _ => failNavAttempt) "adele" 2
     (fun j _ => ⟨"net::ERR_NAME_NOT_RESOLVED", rfl⟩)⟩

/-- Claim C10: when the attempts before `k` raise and attempt `k`'s
persistence step reports failure without raising (`save_webpage` returns
`None`, so the body executes `return None` at line 194),
`search_and_save_page` returns `None` immediately from attempt `k`: the
remaining `max_retries - k` retries are not consumed — the retry mechanism
applies only to raised conditions. -/
theorem C10_persistence_failure_no_retry (env : Nat → AttemptEnv)
    (q : String) (m k : Nat) (hk : k ≤ m)
    (hpre : ∀ j, j < k →
      ∃ e, (runAttempt (env j) q).outcome = AttemptOutcome.exn e)
    (hret : (runAttempt (env k) q).outcome = AttemptOutcome.ret none) :
    (search_and_save_page env q m).result = none ∧
    (search_and_save_page env q m).attempts = k + 1 := by
  obtain ⟨h1, h2⟩ := searchLoop_prefixRet env q m k none hpre hret hk
    (m + 1) 0 (by omega) (by omega)
  exact ⟨h1, by rw [search_and_save_page, h2]; omega⟩

/-- Witness for C10: with `max_retries = 2`, an attempt 0 whose
`save_webpage` returns `None` ends the whole run at once — one attempt,
no result. -/
theorem C10_persistence_failure_no_retry_witness :
    (0 ≤ 2) ∧
    (runAttempt saveNoneAttempt "adele").outcome =
      AttemptOutcome.ret none ∧
    (search_and_save_page (fun _ => saveNoneAttempt) "adele" 2).result =
      none ∧
    (search_and_save_page (fun _ => saveNoneAttempt) "adele" 2).attempts =
      0 + 1 :=
  ⟨by omega, by decide,
   C10_persistence_failure_no_retry (fun _ => saveNoneAttempt) "adele" 2 0
     (by omega) (fun j hj => absurd hj (by omega)) (by decide)⟩

/-- Counterexample to claim C3 as stated: the first selector's wait returns
a clickable element that is not displayed, every other selector times out.
No selector yields a visible, clickable element — yet `search_input` is
truthy (the non-displayed element was assigned before the `is_displayed`
check failed to `break`), so the element-not-found condition is NOT raised:
the claimed "if and only if" fails in the "if" direction. -/
theorem C3_selector_probe_counterexample :
    findSearchInput [some ⟨false⟩, none, none, none, none] ≠ none ∧
    List.any [some (WebElement.mk false), none, none, none, none]
      yieldsVisible = false := by
  decide

/-- Claim C3 amended: the probe stops at the first selector that yields a
visible, clickable element; the element-not-found condition is raised if
and only if every selector's wait times out (yields no clickable element at
all) — a clickable but non-displayed element suppresses the raise without
stopping the probe at that selector. -/
theorem C3_selector_probe_amended (outs : List (Option WebElement)) :
    (findSearchInput outs = none ↔ ∀ o ∈ outs, o = none) ∧
    (∀ l r el, outs = l ++ some el :: r → el.displayed = true →
      (∀ o ∈ l, ∀ e, o = some e → e.displayed = false) →
      findSearchInput outs = some el) := by
  constructor
  · rw [findSearchInput, findSearchInputLoop_eq_none]
    simp
  · intro l r el houts hd hl
    rw [houts, findSearchInput]
    exact findSearchInputLoop_first_displayed l el r hd hl none

/-- Witness for the amended C3: first selector times out, second yields a
displayed element — the probe settles on it; and the raise-iff-all-timeout
equivalence holds at this input. -/
theorem C3_selector_probe_amended_witness :
    (findSearchInput [none, some ⟨true⟩, none, none, none] = none ↔
      ∀ o ∈ [none, some (WebElement.mk true), none, none, none],
        o = none) ∧
    findSearchInput [none, some ⟨true⟩, none, none, none] =
      some ⟨true⟩ := by
  have h := C3_selector_probe_amended
    [none, some ⟨true⟩, none, none, none]
  refine ⟨h.1, ?_⟩
  refine h.2 [none] [none, none, none] ⟨true⟩ rfl rfl ?_
  intro o ho e he
  simp only [List.mem_singleton] at ho
  subst ho
  cases he

/-- Counterexample to claim C4 as stated: the HTML write succeeds and the
file exists with non-zero size after writing, but `driver.save_screenshot`
raises before the verification step is reached — `save_webpage` returns
`None` even though the HTML file exists and is non-empty, so the claimed
"if and only if" fails. -/
theorem C4_save_verification_counterexample :
    (save_webpage screenshotFailEnv "adele" true).result = none ∧
    screenshotFailEnv.htmlExists = true ∧
    0 < screenshotFailEnv.htmlSize ∧
    (save_webpage screenshotFailEnv "adele" true).writes ≠ [] := by
  decide

/-- Claim C4 amended: provided no exception is raised inside the step
(the `try` body returns rather than escapes to the `except` clause),
`save_webpage` returns a Capture Result if and only if the HTML file
exists and has non-zero byte size after writing, and the two failure
shapes are logged distinctly: error `"HTML file was not created"` when the
file is missing, warning `"HTML file was created but is empty"` when it is
empty. -/
theorem C4_save_verification_amended (env : SaveEnv) (q : String) (b : Bool)
    (r : Option CaptureResult)
    (hok : (save_webpage_core env q b).outcome = Except.ok r) :
    (save_webpage env q b).result = r ∧
    (r.isSome = true ↔ (env.htmlExists = true ∧ 0 < env.htmlSize)) ∧
    (env.htmlExists = false →
      LogEntry.mk LogLevel.error "HTML file was not created" ∈
        (save_webpage env q b).log) ∧
    (env.htmlExists = true → env.htmlSize = 0 →
      LogEntry.mk LogLevel.warning "HTML file was created but is empty" ∈
        (save_webpage env q b).log) := by
  obtain ⟨cwd, ts, mk, ps, we, se, hex, hsz⟩ := env
  simp only [save_webpage, hok]
  cases mk with
  | some e => simp [save_webpage_core] at hok
  | none =>
  cases ps with
  | error e => simp [save_webpage_core] at hok
  | ok src =>
  cases we with
  | some e => simp [save_webpage_core] at hok
  | none =>
  cases b with
  | true =>
    cases se with
    | some e => simp [save_webpage_core] at hok
    | none =>
      cases hex with
      | true =>
        by_cases hp : 0 < hsz
        · simp [save_webpage_core, hp] at hok ⊢
          subst hok
          simp
          omega
        · simp [save_webpage_core, if_neg hp, Nat.not_lt.mp hp] at hok ⊢
          subst hok
          simpa using hp
      | false =>
        simp [save_webpage_core] at hok ⊢
        subst hok
        simp
  | false =>
    cases hex with
    | true =>
      by_cases hp : 0 < hsz
      · simp [save_webpage_core, hp] at hok ⊢
        subst hok
        simp
        omega
      · simp [save_webpage_core, if_neg hp, Nat.not_lt.mp hp] at hok ⊢
        subst hok
        simpa using hp
    | false =>
      simp [save_webpage_core] at hok ⊢
      subst hok
      simp

/-- Witness for the amended C4 at a concrete input: an exception-free run
in which the HTML file is reported missing at verification — `None` is
returned and the "not created" error is logged. -/
theorem C4_save_verification_amended_witness :
    (save_webpage saveFailEnv "adele" true).result = none ∧
    ((none : Option CaptureResult).isSome = true ↔
      (saveFailEnv.htmlExists = true ∧ 0 < saveFailEnv.htmlSize)) ∧
    (saveFailEnv.htmlExists = false →
      LogEntry.mk LogLevel.error "HTML file was not created" ∈
        (save_webpage saveFailEnv "adele" true).log) ∧
    (saveFailEnv.htmlExists = true → saveFailEnv.htmlSize = 0 →
      LogEntry.mk LogLevel.warning "HTML file was created but is empty" ∈
        (save_webpage saveFailEnv "adele" true).log) :=
  C4_save_verification_amended saveFailEnv "adele" true none (by rfl)

/-- Claim C5: whatever exception the body of `save_webpage` raises, the
catch-all `except` clause of lines 75-77 converts it into a `None` return
and logs it — `save_webpage` is a total function into `SaveResult`, so no
exception channel even exists in its type: nothing propagates to the
caller. -/
theorem C5_save_webpage_exceptions_contained (env : SaveEnv) (q : String)
    (b : Bool) (e : String)
    (herr : (save_webpage_core env q b).outcome = Except.error e) :
    (save_webpage env q b).result = none ∧
    LogEntry.mk LogLevel.error ("Error saving webpage: " ++ e) ∈
      (save_webpage env q b).log := by
  simp only [save_webpage, herr]
  simp

/-- Witness for C5 at a concrete input: `os.makedirs` raising
`"disk full"` yields a `None` return and the logged error. -/
theorem C5_save_webpage_exceptions_contained_witness :
    (save_webpage_core ⟨"/w", "20240101_120000", some "disk full",
        Except.ok "<p>hi</p>", none, none, true, 42⟩ "adele" true).outcome =
      Except.error "disk full" ∧
    (save_webpage ⟨"/w", "20240101_120000", some "disk full",
        Except.ok "<p>hi</p>", none, none, true, 42⟩ "adele" true).result =
      none ∧
    LogEntry.mk LogLevel.error ("Error saving webpage: " ++ "disk full") ∈
      (save_webpage ⟨"/w", "20240101_120000", some "disk full",
        Except.ok "<p>hi</p>", none, none, true, 42⟩ "adele" true).log :=
  ⟨rfl,
   C5_save_webpage_exceptions_contained
     ⟨"/w", "20240101_120000", some "disk full", Except.ok "<p>hi</p>",
      none, none, true, 42⟩ "adele" true "disk full" rfl⟩

/-- Claim C6: within one attempt in which every prior step succeeds,
failure of every result-container selector to match is non-fatal — the
body logs the warning, does not raise (so this condition alone never
triggers a retry), and proceeds to the persistence step
(`save_webpage` is called). -/
theorem C6_missing_results_nonfatal (env : AttemptEnv) (q : String)
    (hnav : env.navExn = none) (hload : env.initialLoadOk = true)
    (hsearch : (findSearchInput env.searchProbe).isSome = true)
    (hclear : env.clearExn = none) (htype : env.typeExn = none)
    (hsubmit : env.submitExn = none)
    (hnores : ∀ b ∈ env.resultProbe, b = false)
    (hre : env.reconfirmOk = true)
    (hsd : env.scrollDownExn = none) (hsu : env.scrollUpExn = none) :
    (∃ r, (runAttempt env q).outcome = AttemptOutcome.ret r) ∧
    (runAttempt env q).saveCalled = true ∧
    LogEntry.mk LogLevel.warning
      "Could not confirm results - will try to save anyway" ∈
      (runAttempt env q).log := by
  obtain ⟨el, hel⟩ := Option.isSome_iff_exists.mp hsearch
  have hcr := confirmResults_eq_false env.resultProbe hnores
  obtain ⟨nav, ild, cf, sp, ce, te, sue, rp, rcf, sd, su, sv, her⟩ := env
  simp only at hnav hload hclear htype hsubmit hre hsd hsu hel hcr
  subst hnav hload hclear htype hsubmit hre hsd hsu
  cases her <;> cases hsaved : (save_webpage sv q true).result <;>
    simp [runAttempt, hel, hcr, hsaved, wait_for_page_load]

/-- Witness for C6 at a concrete input: every result selector fails, all
other steps succeed — the body still returns, persistence runs, and the
warning appears. -/
theorem C6_missing_results_nonfatal_witness :
    noResultsAttempt.navExn = none ∧
    (∀ b ∈ noResultsAttempt.resultProbe, b = false) ∧
    (∃ r, (runAttempt noResultsAttempt "adele").outcome =
      AttemptOutcome.ret r) ∧
    (runAttempt noResultsAttempt "adele").saveCalled = true ∧
    LogEntry.mk LogLevel.warning
      "Could not confirm results - will try to save anyway" ∈
      (runAttempt noResultsAttempt "adele").log :=
  ⟨rfl, by decide,
   C6_missing_results_nonfatal noResultsAttempt "adele" rfl rfl (by decide)
     rfl rfl rfl (by decide) rfl rfl rfl⟩

/-- Claim C7: when the standard-input line strips to the empty string, the
program only logs the error `"Search query cannot be empty"`: no browser
session is created, no file is written, and the downstream process is
never invoked — `search_and_save_page` is not called at all. -/
theorem C7_empty_query_short_circuit (line : String)
    (env : Nat → AttemptEnv) (interp scriptDir : String)
    (c : CrawlerOutcome) (hempty : strip line = "") :
    mainRun line env interp scriptDir c =
      ⟨0, none, [], [], 0,
       [⟨LogLevel.error, "Search query cannot be empty"⟩]⟩ := by
  simp [mainRun, hempty]

/-- Witness for C7 at a concrete input: a line of blanks. -/
theorem C7_empty_query_short_circuit_witness :
    (strip "   " = "") ∧
    mainRun "   " (fun _ => goodAttempt) "python3" "/app"
        CrawlerOutcome.success =
      ⟨0, none, [], [], 0,
       [⟨LogLevel.error, "Search query cannot be empty"⟩]⟩ :=
  ⟨by decide,
   C7_empty_query_short_circuit "   " (fun _ => goodAttempt) "python3"
     "/app" CrawlerOutcome.success (by decide)⟩

/-- Claim C9: the downstream crawler is invoked exactly once — via
`subprocess.run` with precisely the two-element argument vector
`[interpreter, crawler_path]` — when and only when the run produced a
Capture Result, and the program's exit status is the default success code
no matter how the crawler run ends (its failures are only logged inside
`execute_crawler`). -/
theorem C9_downstream_handoff (line : String) (env : Nat → AttemptEnv)
    (interp scriptDir : String) (c : CrawlerOutcome) :
    ((mainRun line env interp scriptDir c).invocations =
      if (mainRun line env interp scriptDir c).result.isSome = true
      then [[interp, scriptDir ++ "/crawler.py"]] else []) ∧
    (mainRun line env interp scriptDir c).exitCode = 0 := by
  by_cases h : strip line = ""
  · simp [mainRun, h]
  · cases hres : (search_and_save_page env (strip line) 2).result <;>
      cases c <;> simp [mainRun, h, hres, execute_crawler]

/-- Claim C8: a successful persistence performs exactly one HTML file
write; the file's name is
`<outputs dir>/ticketmaster_<query, spaces mapped to underscores>_<timestamp>.html`
(the timestamp string is the oracle's `strftime("%Y%m%d_%H%M%S")` value,
second precision), its content is the literal doctype line followed by the
page markup the driver reported, and the returned record names exactly
that path. -/
theorem C8_saved_file_shape (env : SaveEnv) (q : String) (b : Bool)
    (r : CaptureResult)
    (hs : (save_webpage env q b).result = some r) :
    ∃ src, env.pageSource = Except.ok src ∧
      (save_webpage env q b).writes =
        [⟨env.cwd ++ "/outputs" ++ "/" ++
            ("ticketmaster_" ++ sanitizeQuery q ++ "_" ++ env.timestamp ++
              ".html"),
          "<!DOCTYPE html>\n" ++ src⟩] ∧
      r.html_path = env.cwd ++ "/outputs" ++ "/" ++
        ("ticketmaster_" ++ sanitizeQuery q ++ "_" ++ env.timestamp ++
          ".html") := by
  obtain ⟨cwd, ts, mk, ps, we, se, hex, hsz⟩ := env
  cases mk with
  | some e => simp [save_webpage, save_webpage_core] at hs
  | none =>
  cases ps with
  | error e => simp [save_webpage, save_webpage_core] at hs
  | ok src =>
  refine ⟨src, rfl, ?_⟩
  cases we with
  | some e => simp [save_webpage, save_webpage_core] at hs
  | none =>
  cases b with
  | true =>
    cases se with
    | some e => simp [save_webpage, save_webpage_core] at hs
    | none =>
      cases hex with
      | false => simp [save_webpage, save_webpage_core] at hs
      | true =>
        by_cases hp : 0 < hsz
        · simp [save_webpage, save_webpage_core, hp] at hs ⊢
          rw [← hs]
        · simp [save_webpage, save_webpage_core, if_neg hp] at hs
  | false =>
    cases hex with
    | false => simp [save_webpage, save_webpage_core] at hs
    | true =>
      by_cases hp : 0 < hsz
      · simp [save_webpage, save_webpage_core, hp] at hs ⊢
        rw [← hs]
      · simp [save_webpage, save_webpage_core, if_neg hp] at hs

/-- Witness for C8 at a concrete input: a fully successful save of the
query `"taylor swift"` writes one file named from the sanitized query and
timestamp, containing the doctype line plus the page source. -/
theorem C8_saved_file_shape_witness :
    (save_webpage okSaveEnv "taylor swift" true).result =
      some ⟨"/w/outputs/ticketmaster_taylor_swift_20240101_120000.html",
        some "/w/outputs/ticketmaster_taylor_swift_20240101_120000.png"⟩ ∧
    (∃ src, okSaveEnv.pageSource = Except.ok src ∧
      (save_webpage okSaveEnv "taylor swift" true).writes =
        [⟨okSaveEnv.cwd ++ "/outputs" ++ "/" ++
            ("ticketmaster_" ++ sanitizeQuery "taylor swift" ++ "_" ++
              okSaveEnv.timestamp ++ ".html"),
          "<!DOCTYPE html>\n" ++ src⟩] ∧
      (CaptureResult.mk
          "/w/outputs/ticketmaster_taylor_swift_20240101_120000.html"
          (some
            "/w/outputs/ticketmaster_taylor_swift_20240101_120000.png")).html_path =
        okSaveEnv.cwd ++ "/outputs" ++ "/" ++
          ("ticketmaster_" ++ sanitizeQuery "taylor swift" ++ "_" ++
            okSaveEnv.timestamp ++ ".html")) :=
  ⟨by decide,
   C8_saved_file_shape okSaveEnv "taylor swift" true
     ⟨"/w/outputs/ticketmaster_taylor_swift_20240101_120000.html",
      some "/w/outputs/ticketmaster_taylor_swift_20240101_120000.png"⟩
     (by decide)⟩
